import Mathlib

/-!
Shallow embedding of the core of `stupid-dbg`, a native process-debugger
backend: the amd64 register catalog generated by the
`define_amd64_registers!` proc macro (`helper-proc-macros/src/
define_amd64_registers.rs`, invoked in `stupid-dbg/src/register.rs`),
the register snapshot read/write logic (`stupid-dbg/src/register.rs`),
and the debuggee lifecycle controller (`stupid-dbg/src/debuggee.rs`).

Machine bytes are modelled as `Nat` (each `< 256` where it matters), the
snapshot buffer (`libc::user`) as a function from absolute byte offset to
byte, and the platform-defined field offsets and sizes of the `libc`
structures (which the Rust code obtains with `core::mem::offset_of!` and
`field_size!`) as an explicit `UserLayout` record, so theorems can be
proved for every layout and evaluated at the concrete Linux amd64 one.
-/

namespace StupidDbg

/-- The platform constants the generated code takes from `libc`:
byte offsets of the fields of `libc::user` used by registers (`regs`,
`i387`, `u_debugreg`), offsets of named fields inside
`libc::user_regs_struct` and `libc::user_fpregs_struct`, the offsets of
the `st_space` / `xmm_space` arrays, and the sizes of named
floating-point-struct fields (the Rust macro's `field_size!`). -/
structure UserLayout where
  regs : Nat
  i387 : Nat
  u_debugreg : Nat
  regsField : String → Nat
  fpregsField : String → Nat
  fpregsFieldSize : String → Nat
  st_space : Nat
  xmm_space : Nat

/-- Field offsets inside `libc::user_regs_struct` on Linux amd64
(27 consecutive 8-byte fields, in declaration order). -/
def linuxRegsField : String → Nat
  | "r15" => 0
  | "r14" => 8
  | "r13" => 16
  | "r12" => 24
  | "rbp" => 32
  | "rbx" => 40
  | "r11" => 48
  | "r10" => 56
  | "r9" => 64
  | "r8" => 72
  | "rax" => 80
  | "rcx" => 88
  | "rdx" => 96
  | "rsi" => 104
  | "rdi" => 112
  | "orig_rax" => 120
  | "rip" => 128
  | "cs" => 136
  | "eflags" => 144
  | "rsp" => 152
  | "ss" => 160
  | "fs_base" => 168
  | "gs_base" => 176
  | "ds" => 184
  | "es" => 192
  | "fs" => 200
  | "gs" => 208
  | _ => 0

/-- Field offsets inside `libc::user_fpregs_struct` on Linux amd64. -/
def linuxFpregsField : String → Nat
  | "cwd" => 0
  | "swd" => 2
  | "ftw" => 4
  | "fop" => 6
  | "rip" => 8
  | "rdp" => 16
  | "mxcsr" => 24
  | "mxcr_mask" => 28
  | "st_space" => 32
  | "xmm_space" => 160
  | _ => 0

/-- Field sizes inside `libc::user_fpregs_struct` on Linux amd64. -/
def linuxFpregsFieldSize : String → Nat
  | "cwd" => 2
  | "swd" => 2
  | "ftw" => 2
  | "fop" => 2
  | "rip" => 8
  | "rdp" => 8
  | "mxcsr" => 4
  | "mxcr_mask" => 4
  | _ => 0

/-- The concrete Linux amd64 layout of `libc::user` and its
sub-structures. -/
def linuxAmd64Layout : UserLayout where
  regs := 0
  i387 := 224
  u_debugreg := 848
  regsField := linuxRegsField
  fpregsField := linuxFpregsField
  fpregsFieldSize := linuxFpregsFieldSize
  st_space := 32
  xmm_space := 160

/-- `RegisterKind` from `stupid-dbg/src/register.rs`. -/
inductive RegisterKind where
  | generalPurpose
  | subGeneralPurpose
  | floatingPoint
  | debug
deriving DecidableEq, Repr

/-- `RegisterRepr` from `stupid-dbg/src/register.rs`. -/
inductive RegisterRepr where
  | uint
  | longDouble
  | vector
deriving DecidableEq, Repr

/-- One catalog entry, mirroring `RegDef` in the proc macro
(`define_amd64_registers.rs`): the seven directive shapes
`gpr_64`, `gpr_(32|16|8l|8h)`, `fpr`, `fp_st`, `fp_mm`, `fp_xmm`, `dr`.
For `gprSub` the parsed byte width and offset-on-base are stored, as the
macro does after `parse_gpr_sub`. -/
inductive RegDef where
  | gpr64 (name : String) (dwarfId : Option Nat)
  | gprSub (name baseName : String) (byteWidth offsetOnBase : Nat)
  | fpr (name fieldName : String) (dwarfId : Option Nat)
  | fpSt (id : Nat)
  | fpMM (id : Nat)
  | fpXMM (id : Nat)
  | dr (id : Nat)
deriving DecidableEq, Repr

namespace RegDef

/-- `RegDef::name` in the macro: `st{id}` / `mm{id}` / `xmm{id}` /
`dr{id}` for the array groups, the stored name otherwise. -/
def regName : RegDef → String
  | gpr64 n _ => n
  | gprSub n _ _ _ => n
  | fpr n _ _ => n
  | fpSt i => "st" ++ toString i
  | fpMM i => "mm" ++ toString i
  | fpXMM i => "xmm" ++ toString i
  | dr i => "dr" ++ toString i

/-- `RegDef::dwarf_id_expr`: stored id for `gpr_64`/`fpr`, none for
sub-registers and debug registers, `33+id` for `st`, `41+id` for `mm`,
`17+id` for `xmm`. -/
def dwarfId : RegDef → Option Nat
  | gpr64 _ d => d
  | gprSub _ _ _ _ => none
  | fpr _ _ d => d
  | fpSt i => some (33 + i)
  | fpMM i => some (41 + i)
  | fpXMM i => some (17 + i)
  | dr _ => none

/-- `RegDef::kind_expr`. -/
def kind : RegDef → RegisterKind
  | gpr64 _ _ => RegisterKind.generalPurpose
  | gprSub _ _ _ _ => RegisterKind.subGeneralPurpose
  | fpr _ _ _ => RegisterKind.floatingPoint
  | fpSt _ => RegisterKind.floatingPoint
  | fpMM _ => RegisterKind.floatingPoint
  | fpXMM _ => RegisterKind.floatingPoint
  | dr _ => RegisterKind.debug

/-- `RegDef::repr_expr`. -/
def repr : RegDef → RegisterRepr
  | gpr64 _ _ => RegisterRepr.uint
  | gprSub _ _ _ _ => RegisterRepr.uint
  | fpr _ _ _ => RegisterRepr.uint
  | fpSt _ => RegisterRepr.longDouble
  | fpMM _ => RegisterRepr.vector
  | fpXMM _ => RegisterRepr.vector
  | dr _ => RegisterRepr.uint

/-- `RegDef::byte_width_expr`: 8 for `gpr_64`, the parsed width for
sub-registers, the `libc` field size for `fpr`, 16 for `st`, 8 for `mm`,
16 for `xmm`, 8 for `dr`. -/
def byteWidth (L : UserLayout) : RegDef → Nat
  | gpr64 _ _ => 8
  | gprSub _ _ w _ => w
  | fpr _ f _ => L.fpregsFieldSize f
  | fpSt _ => 16
  | fpMM _ => 8
  | fpXMM _ => 16
  | dr _ => 8

/-- `RegDef::final_offset_expr`: 0 for `gpr_64`/`fpr`, the
offset-on-base for sub-registers, `id * 16` for `st`, `mm` and `xmm`,
`id * 8` for `dr`. -/
def finalOffset : RegDef → Nat
  | gpr64 _ _ => 0
  | gprSub _ _ _ off => off
  | fpr _ _ _ => 0
  | fpSt i => i * 16
  | fpMM i => i * 16
  | fpXMM i => i * 16
  | dr i => i * 8

/-- `RegDef::offset_in_user_struct_expr`: offset of the top-level field
of `libc::user`, plus the offset of the named field in the sub-structure
(0 when there is none), plus the final per-group offset. -/
def offsetInUserStruct (L : UserLayout) : RegDef → Nat
  | gpr64 n _ => L.regs + L.regsField n + 0
  | gprSub _ base _ off => L.regs + L.regsField base + off
  | fpr _ f _ => L.i387 + L.fpregsField f + 0
  | fpSt i => L.i387 + L.st_space + i * 16
  | fpMM i => L.i387 + L.st_space + i * 16
  | fpXMM i => L.i387 + L.xmm_space + i * 16
  | dr i => L.u_debugreg + 0 + i * 8

end RegDef

/-- The catalog: the exact `define_amd64_registers!` invocation in
`stupid-dbg/src/register.rs`, in source order. -/
def allRegisters : List RegDef := [
  RegDef.gpr64 "rax" (some 0),
  RegDef.gpr64 "rdx" (some 1),
  RegDef.gpr64 "rcx" (some 2),
  RegDef.gpr64 "rbx" (some 3),
  RegDef.gpr64 "rsi" (some 4),
  RegDef.gpr64 "rdi" (some 5),
  RegDef.gpr64 "rbp" (some 6),
  RegDef.gpr64 "rsp" (some 7),
  RegDef.gpr64 "r8" (some 8),
  RegDef.gpr64 "r9" (some 9),
  RegDef.gpr64 "r10" (some 10),
  RegDef.gpr64 "r11" (some 11),
  RegDef.gpr64 "r12" (some 12),
  RegDef.gpr64 "r13" (some 13),
  RegDef.gpr64 "r14" (some 14),
  RegDef.gpr64 "r15" (some 15),
  RegDef.gpr64 "rip" (some 16),
  RegDef.gpr64 "eflags" (some 49),
  RegDef.gpr64 "es" (some 50),
  RegDef.gpr64 "cs" (some 51),
  RegDef.gpr64 "ss" (some 52),
  RegDef.gpr64 "ds" (some 53),
  RegDef.gpr64 "fs" (some 54),
  RegDef.gpr64 "gs" (some 55),
  RegDef.gpr64 "orig_rax" none,
  RegDef.gprSub "eax" "rax" 4 0,
  RegDef.gprSub "ebx" "rbx" 4 0,
  RegDef.gprSub "ecx" "rcx" 4 0,
  RegDef.gprSub "edx" "rdx" 4 0,
  RegDef.gprSub "esi" "rsi" 4 0,
  RegDef.gprSub "edi" "rdi" 4 0,
  RegDef.gprSub "ebp" "rbp" 4 0,
  RegDef.gprSub "esp" "rsp" 4 0,
  RegDef.gprSub "r8d" "r8" 4 0,
  RegDef.gprSub "r9d" "r9" 4 0,
  RegDef.gprSub "r10d" "r10" 4 0,
  RegDef.gprSub "r11d" "r11" 4 0,
  RegDef.gprSub "r12d" "r12" 4 0,
  RegDef.gprSub "r13d" "r13" 4 0,
  RegDef.gprSub "r14d" "r14" 4 0,
  RegDef.gprSub "r15d" "r15" 4 0,
  RegDef.gprSub "ax" "rax" 2 0,
  RegDef.gprSub "bx" "rbx" 2 0,
  RegDef.gprSub "cx" "rcx" 2 0,
  RegDef.gprSub "dx" "rdx" 2 0,
  RegDef.gprSub "si" "rsi" 2 0,
  RegDef.gprSub "di" "rdi" 2 0,
  RegDef.gprSub "bp" "rbp" 2 0,
  RegDef.gprSub "sp" "rsp" 2 0,
  RegDef.gprSub "r8w" "r8" 2 0,
  RegDef.gprSub "r9w" "r9" 2 0,
  RegDef.gprSub "r10w" "r10" 2 0,
  RegDef.gprSub "r11w" "r11" 2 0,
  RegDef.gprSub "r12w" "r12" 2 0,
  RegDef.gprSub "r13w" "r13" 2 0,
  RegDef.gprSub "r14w" "r14" 2 0,
  RegDef.gprSub "r15w" "r15" 2 0,
  RegDef.gprSub "al" "rax" 1 0,
  RegDef.gprSub "bl" "rbx" 1 0,
  RegDef.gprSub "cl" "rcx" 1 0,
  RegDef.gprSub "dl" "rdx" 1 0,
  RegDef.gprSub "sil" "rsi" 1 0,
  RegDef.gprSub "dil" "rdi" 1 0,
  RegDef.gprSub "bpl" "rbp" 1 0,
  RegDef.gprSub "spl" "rsp" 1 0,
  RegDef.gprSub "r8b" "r8" 1 0,
  RegDef.gprSub "r9b" "r9" 1 0,
  RegDef.gprSub "r10b" "r10" 1 0,
  RegDef.gprSub "r11b" "r11" 1 0,
  RegDef.gprSub "r12b" "r12" 1 0,
  RegDef.gprSub "r13b" "r13" 1 0,
  RegDef.gprSub "r14b" "r14" 1 0,
  RegDef.gprSub "r15b" "r15" 1 0,
  RegDef.gprSub "ah" "rax" 1 1,
  RegDef.gprSub "bh" "rbx" 1 1,
  RegDef.gprSub "ch" "rcx" 1 1,
  RegDef.gprSub "dd" "rdx" 1 1,
  RegDef.fpr "fcw" "cwd" (some 65),
  RegDef.fpr "fsw" "swd" (some 66),
  RegDef.fpr "ftw" "ftw" none,
  RegDef.fpr "fop" "fop" none,
  RegDef.fpr "frip" "rip" none,
  RegDef.fpr "frdp" "rdp" none,
  RegDef.fpr "mxcsr" "mxcsr" (some 64),
  RegDef.fpr "mxcsrmask" "mxcr_mask" none,
  RegDef.fpSt 0,
  RegDef.fpSt 1,
  RegDef.fpSt 2,
  RegDef.fpSt 3,
  RegDef.fpSt 4,
  RegDef.fpSt 5,
  RegDef.fpSt 6,
  RegDef.fpSt 7,
  RegDef.fpMM 0,
  RegDef.fpMM 1,
  RegDef.fpMM 2,
  RegDef.fpMM 3,
  RegDef.fpMM 4,
  RegDef.fpMM 5,
  RegDef.fpMM 6,
  RegDef.fpMM 7,
  RegDef.fpXMM 0,
  RegDef.fpXMM 1,
  RegDef.fpXMM 2,
  RegDef.fpXMM 3,
  RegDef.fpXMM 4,
  RegDef.fpXMM 5,
  RegDef.fpXMM 6,
  RegDef.fpXMM 7,
  RegDef.fpXMM 8,
  RegDef.fpXMM 9,
  RegDef.fpXMM 10,
  RegDef.fpXMM 11,
  RegDef.fpXMM 12,
  RegDef.fpXMM 13,
  RegDef.fpXMM 14,
  RegDef.fpXMM 15,
  RegDef.dr 0,
  RegDef.dr 1,
  RegDef.dr 2,
  RegDef.dr 3,
  RegDef.dr 4,
  RegDef.dr 5,
  RegDef.dr 6,
  RegDef.dr 7]

/-- `Register::lookup_by_name`, via the `NAME_TO_REGISTER_MAP` built from
`all_registers()` keyed by `name()`. -/
def lookupByName (n : String) : Option RegDef :=
  allRegisters.find? (fun r => r.regName == n)

/-- `Register::lookup_by_dwarf_id`, via the `DWARF_ID_TO_REGISTER_MAP`
built from `all_registers()` keyed by `dwarf_id()` where present. -/
def lookupByDwarfId (d : Nat) : Option RegDef :=
  allRegisters.find? (fun r => r.dwarfId == some d)

/-- The snapshot buffer (`libc::user` seen as raw bytes): a byte for
every absolute offset. -/
def Buf : Type := Nat → Nat

/-- A `MaybeUninit::<libc::user>::zeroed()` buffer. -/
def zeroBuf : Buf := fun _ => 0

/-- Write `len` zero bytes at `off` (the `zeroed_ptr.copy_to(ptr,
byte_width)` step of `Register::copy_to_user_struct`). -/
def zeroFill (b : Buf) (off len : Nat) : Buf :=
  fun i => if off ≤ i ∧ i < off + len then 0 else b i

/-- Copy `src` into the buffer at `off` (the `from_ptr.copy_to(ptr,
value_byte_width)` step). -/
def copyBytes (b : Buf) (off : Nat) (src : List Nat) : Buf :=
  fun i => if off ≤ i ∧ i < off + src.length then src.getD (i - off) 0 else b i

/-- Read `len` consecutive bytes starting at `off`. -/
def readBytes (b : Buf) (off len : Nat) : List Nat :=
  (List.range len).map (fun i => b (off + i))

/-- Little-endian byte encoding of a machine integer, `w` bytes wide
(how the bytes behind `RegisterValue::as_u8_ptr` look in memory). -/
def toLEBytes : Nat → Nat → List Nat
  | 0, _ => []
  | w + 1, x => x % 256 :: toLEBytes w (x / 256)

/-- Little-endian decoding: the integer whose memory bytes are `bs`
(what `read_any_from_void_pointer` yields for an integer target). -/
def fromLEBytes : List Nat → Nat
  | [] => 0
  | b :: bs => b + 256 * fromLEBytes bs

/-- Two's-complement little-endian bytes of a signed machine integer. -/
def intLEBytes (w : Nat) (x : Int) : List Nat :=
  toLEBytes w (x.emod (2 ^ (8 * w))).toNat

/-- Pad a byte list with zeroes up to `n` bytes:
`read_any_from_void_pointer` zero-initialises the whole target and
copies only `size` bytes into its low end. -/
def padTo (n : Nat) (bs : List Nat) : List Nat :=
  bs ++ List.replicate (n - bs.length) 0

/-- `RegisterValue` from `stupid-dbg/src/register.rs`. Unsigned
variants carry the `Nat` value, signed ones the `Int` value; the `f128`
and byte-array variants carry their raw memory bytes. -/
inductive RegisterValue where
  | u8 (x : Nat)
  | u16 (x : Nat)
  | u32 (x : Nat)
  | u64 (x : Nat)
  | i8 (x : Int)
  | i16 (x : Int)
  | i32 (x : Int)
  | i64 (x : Int)
  | f128 (bytes : List Nat)
  | byte64 (bytes : List Nat)
  | byte128 (bytes : List Nat)
deriving DecidableEq, Repr

namespace RegisterValue

/-- `RegisterValue::byte_width` (`size_of_val` of the payload). -/
def byteWidth : RegisterValue → Nat
  | u8 _ => 1
  | u16 _ => 2
  | u32 _ => 4
  | u64 _ => 8
  | i8 _ => 1
  | i16 _ => 2
  | i32 _ => 4
  | i64 _ => 8
  | f128 _ => 16
  | byte64 _ => 8
  | byte128 _ => 16

/-- The `byte_width()` bytes behind `RegisterValue::as_u8_ptr`, little
endian. -/
def bytes : RegisterValue → List Nat
  | u8 x => toLEBytes 1 x
  | u16 x => toLEBytes 2 x
  | u32 x => toLEBytes 4 x
  | u64 x => toLEBytes 8 x
  | i8 x => intLEBytes 1 x
  | i16 x => intLEBytes 2 x
  | i32 x => intLEBytes 4 x
  | i64 x => intLEBytes 8 x
  | f128 bs => bs
  | byte64 bs => bs
  | byte128 bs => bs

/-- Well-formedness: payloads fit the Rust machine types (`u8`…`u64`,
`i8`…`i64`); byte payloads have the fixed length of their variant and
are genuine bytes. -/
def wfb : RegisterValue → Bool
  | u8 x => x < 2 ^ 8
  | u16 x => x < 2 ^ 16
  | u32 x => x < 2 ^ 32
  | u64 x => x < 2 ^ 64
  | i8 x => -(2 ^ 7) ≤ x ∧ x < 2 ^ 7
  | i16 x => -(2 ^ 15) ≤ x ∧ x < 2 ^ 15
  | i32 x => -(2 ^ 31) ≤ x ∧ x < 2 ^ 31
  | i64 x => -(2 ^ 63) ≤ x ∧ x < 2 ^ 63
  | f128 bs => bs.length = 16 && bs.all (fun b => b < 256)
  | byte64 bs => bs.length = 8 && bs.all (fun b => b < 256)
  | byte128 bs => bs.length = 16 && bs.all (fun b => b < 256)

/-- Does the variant match a descriptor representation the way the
spec pairs them: unsigned integer for `UInt`, extended-precision float
for `LongDouble`, byte array for `Vector`? -/
def matchesRepr : RegisterValue → RegisterRepr → Bool
  | u8 _, RegisterRepr.uint => true
  | u16 _, RegisterRepr.uint => true
  | u32 _, RegisterRepr.uint => true
  | u64 _, RegisterRepr.uint => true
  | f128 _, RegisterRepr.longDouble => true
  | byte64 _, RegisterRepr.vector => true
  | byte128 _, RegisterRepr.vector => true
  | _, _ => false

/-- Is the value one of the signed-integer variants `I8`/`I16`/`I32`/
`I64`? -/
def isSigned : RegisterValue → Bool
  | i8 _ => true
  | i16 _ => true
  | i32 _ => true
  | i64 _ => true
  | _ => false

end RegisterValue

/-- The failures of the register read/write paths: the size-mismatch
`anyhow!` error of `copy_to_user_struct` and the two `unreachable!`
catalog-defect panics of `read_from_user_struct`. -/
inductive RegError where
  | registerSizeMismatch
  | vectorLongerThan128Bit
  | unhandledreprWidthCombination
deriving DecidableEq, Repr

/-- `Register::read_from_user_struct`: read `byte_width` bytes at the
register's offset and reinterpret them according to `(repr,
byte_width)`, exactly as the Rust `match`. -/
def readRegister (L : UserLayout) (r : RegDef) (b : Buf) :
    Except RegError RegisterValue :=
  match r.repr, r.byteWidth L with
  | RegisterRepr.uint, 1 =>
      Except.ok (RegisterValue.u8
        (fromLEBytes (readBytes b (r.offsetInUserStruct L) 1)))
  | RegisterRepr.uint, 2 =>
      Except.ok (RegisterValue.u16
        (fromLEBytes (readBytes b (r.offsetInUserStruct L) 2)))
  | RegisterRepr.uint, 4 =>
      Except.ok (RegisterValue.u32
        (fromLEBytes (readBytes b (r.offsetInUserStruct L) 4)))
  | RegisterRepr.uint, 8 =>
      Except.ok (RegisterValue.u64
        (fromLEBytes (readBytes b (r.offsetInUserStruct L) 8)))
  | RegisterRepr.longDouble, w =>
      Except.ok (RegisterValue.f128
        (padTo 16 (readBytes b (r.offsetInUserStruct L) w)))
  | RegisterRepr.vector, w =>
      if w ≤ 8 then
        Except.ok (RegisterValue.byte64
          (padTo 8 (readBytes b (r.offsetInUserStruct L) w)))
      else if w ≤ 16 then
        Except.ok (RegisterValue.byte128
          (padTo 16 (readBytes b (r.offsetInUserStruct L) w)))
      else
        Except.error RegError.vectorLongerThan128Bit
  | RegisterRepr.uint, _ =>
      Except.error RegError.unhandledreprWidthCombination

/-- `Register::copy_to_user_struct`: reject a payload wider than the
register before touching the buffer; otherwise zero-fill the whole
`byte_width` lane at the register's offset, then copy the payload over
its low bytes. Returns the final buffer together with the error, if
any. -/
def copyToUserStruct (L : UserLayout) (r : RegDef) (src : List Nat)
    (b : Buf) : Buf × Option RegError :=
  if r.byteWidth L < src.length then
    (b, some RegError.registerSizeMismatch)
  else
    let off := r.offsetInUserStruct L
    (copyBytes (zeroFill b off (r.byteWidth L)) off src, none)

/-- `Register::write_to_user_struct`: copy the value's own bytes. -/
def writeToUserStruct (L : UserLayout) (r : RegDef) (v : RegisterValue)
    (b : Buf) : Buf × Option RegError :=
  copyToUserStruct L r v.bytes b

/-- `Register::write_any_to_user_struct`: same discipline for an
arbitrary binary payload. -/
def writeAnyToUserStruct (L : UserLayout) (r : RegDef)
    (payload : List Nat) (b : Buf) : Buf × Option RegError :=
  copyToUserStruct L r payload b

/-! ## Process lifecycle controller (`stupid-dbg/src/debuggee.rs`)

The OS interactions (`ptrace::cont`, `waitpid`, signals) are modelled by
explicit outcome parameters and by recording which calls an operation
performs. -/

/-- `ProcessState` from `debuggee.rs`; signals are numbers. -/
inductive ProcessState where
  | running
  | stopped (signal : Option Nat)
  | exited (statusCode : Option Int)
  | terminated (signal : Nat)
deriving DecidableEq, Repr

/-- `ProcessState::is_alive`: `Running` and `Stopped` are alive. -/
def ProcessState.isAlive : ProcessState → Bool
  | ProcessState.running => true
  | ProcessState.stopped _ => true
  | _ => false

/-- The OS trace calls an operation can issue. -/
inductive OsCall where
  | ptraceCont
  | waitQuery
deriving DecidableEq, Repr

/-- Failures surfaced by the controller operations. -/
inductive DbgError where
  | resumeOnTerminalState
  | ptraceContFailed
  | unhandledWaitStatus
  | waitFailed (errno : Nat)
deriving DecidableEq, Repr

/-- Outcome of one controller operation: the state it leaves behind,
the error it returns (if any), and the OS calls it performed. -/
structure StepResult where
  newState : ProcessState
  error : Option DbgError
  calls : List OsCall
deriving DecidableEq, Repr

/-- `Debuggee::resume`: on `Stopped`/`Running` issue `ptrace::cont`
(success given by the environment parameter `contOk`) and set the state
to `Running`; when `cont` fails the error propagates and the state is
untouched. On `Exited`/`Terminated` fail without any OS call. -/
def resume (contOk : Bool) (s : ProcessState) : StepResult :=
  match s with
  | ProcessState.stopped _ | ProcessState.running =>
      if contOk then ⟨ProcessState.running, none, [OsCall.ptraceCont]⟩
      else ⟨s, some DbgError.ptraceContFailed, [OsCall.ptraceCont]⟩
  | ProcessState.exited _ | ProcessState.terminated _ =>
      ⟨s, some DbgError.resumeOnTerminalState, []⟩

/-- What the `waitpid` call in `Debuggee::update_process_state` can
produce: the `nix::WaitStatus` variants the code matches, a catch-all
for the other `Ok` statuses (the `unreachable!` arm), and the `ECHILD`
and other error cases. -/
inductive WaitOutcome where
  | exitedStatus (statusCode : Int)
  | signaled (signal : Nat)
  | stoppedSignal (signal : Nat)
  | continuedStatus
  | stillAlive
  | otherStatus
  | errEchild
  | errOther (errno : Nat)
deriving DecidableEq, Repr

/-- The `match wait_status` decoding in `Debuggee::update_process_state`:
exited/signaled/stopped map to their states, continued and still-alive
to `Running`, `ECHILD` to `Exited(None)`; other statuses panic and other
errors propagate, both modelled as errors. -/
def decodeWaitStatus : WaitOutcome → Except DbgError ProcessState
  | WaitOutcome.exitedStatus c => Except.ok (ProcessState.exited (some c))
  | WaitOutcome.signaled sig => Except.ok (ProcessState.terminated sig)
  | WaitOutcome.stoppedSignal sig => Except.ok (ProcessState.stopped (some sig))
  | WaitOutcome.continuedStatus => Except.ok ProcessState.running
  | WaitOutcome.stillAlive => Except.ok ProcessState.running
  | WaitOutcome.otherStatus => Except.error DbgError.unhandledWaitStatus
  | WaitOutcome.errEchild => Except.ok (ProcessState.exited none)
  | WaitOutcome.errOther e => Except.error (DbgError.waitFailed e)

/-- `Debuggee::update_process_state`: one wait query; the decoded state
is installed, or on error the state is left unchanged. -/
def updateProcessState (w : WaitOutcome) (s : ProcessState) : StepResult :=
  match decodeWaitStatus w with
  | Except.ok s2 => ⟨s2, none, [OsCall.waitQuery]⟩
  | Except.error e => ⟨s, some e, [OsCall.waitQuery]⟩

/-- The state `Debuggee::new` stores before its first blocking
`update_process_state`. -/
def initialProcessState : ProcessState := ProcessState.stopped none

/-- The teardown actions of `<Debuggee as Drop>::drop`, in source
order: the initial non-blocking update, `kill(SIGSTOP)`,
`ptrace::detach(SIGCONT)`, `kill(SIGCONT)`, `kill(SIGKILL)`, the
`waitpid` reap, and the trailing `wait()`. -/
inductive DropStep where
  | updateState
  | killStop
  | ptraceDetach
  | killCont
  | killKill
  | waitReap
  | waitFinal
deriving DecidableEq, Repr

/-- `<Debuggee as Drop>::drop`: which teardown actions actually run, as
a function of the liveness of the process after the initial update, the
ownership flag (`should_terminate`) and the success of each fallible
step. The failures of `kill(SIGSTOP)` and `kill(SIGKILL)` cause an
early `return`; `ptrace::detach` and `kill(SIGCONT)` failures are only
logged, so their outcomes (`_detachOk`, `_contOk`) cannot influence the
result. The function is total: teardown returns no error. -/
def dropSteps (alive owned stopOk _detachOk _contOk killOk : Bool) :
    List DropStep :=
  DropStep.updateState ::
    (if alive then
      DropStep.killStop ::
        (if stopOk then
          DropStep.ptraceDetach :: DropStep.killCont ::
            (if owned then
              DropStep.killKill ::
                (if killOk then [DropStep.waitReap, DropStep.waitFinal]
                 else [])
             else [])
         else [])
     else if owned then [DropStep.waitFinal] else [])

/-! ## Snapshot assembly (`Registers::read_with_ptrace`) -/

/-- The iterator `0usize..=8` that the debug-register loop zips with. -/
def debugLoopRange : List Nat := [0, 1, 2, 3, 4, 5, 6, 7, 8]

/-- Modelled from the spec: `Register::all_debug_registers` is called by
`read_with_ptrace` but its definition is not among the sources (the
macro generates only `all_variants`). Spec §4.2: the debug registers
are the 8 individually addressed hardware breakpoint registers — the
`Debug`-kind descriptors of the catalog, in order. -/
def allDebugRegisters : List RegDef :=
  allRegisters.filter (fun r => r.kind == RegisterKind.debug)

/-- The debug-register portion of `Registers::read_with_ptrace`: for
each `(idx, reg)` in `zip(0usize..=8, all_debug_registers())` one
`ptrace::read_user` query at the register offset, stored into
`u_debugreg[idx]`; the list collects the `(idx, offset)` pairs in
order. -/
def debugRegisterReads (L : UserLayout) : List (Nat × Nat) :=
  (debugLoopRange.zip allDebugRegisters).map
    (fun p => (p.1, p.2.offsetInUserStruct L))

/-! ## Byte-level lemmas -/

theorem toLEBytes_length (w x : Nat) : (toLEBytes w x).length = w := by
  induction w generalizing x with
  | zero => rfl
  | succ w ih => simp [toLEBytes, ih]

theorem fromLEBytes_toLEBytes (w x : Nat) (h : x < 256 ^ w) :
    fromLEBytes (toLEBytes w x) = x := by
  induction w generalizing x with
  | zero =>
    simp [toLEBytes, fromLEBytes]
    omega
  | succ w ih =>
    have hdiv : x / 256 < 256 ^ w := by
      rw [Nat.div_lt_iff_lt_mul (by norm_num)]
      calc x < 256 ^ (w + 1) := h
        _ = 256 ^ w * 256 := by ring
    simp [toLEBytes, fromLEBytes, ih _ hdiv]
    omega

theorem readBytes_length (b : Buf) (off len : Nat) :
    (readBytes b off len).length = len := by
  simp [readBytes]

theorem readBytes_copyBytes_zeroFill (b : Buf) (off : Nat) (src : List Nat)
    (w : Nat) (h : src.length = w) :
    readBytes (copyBytes (zeroFill b off w) off src) off w = src := by
  apply List.ext_getElem
  · simp [readBytes, h]
  · intro i h1 h2
    simp [readBytes] at h1 ⊢
    rw [copyBytes]
    simp only [h]
    rw [if_pos (by omega)]
    rw [Nat.add_sub_cancel_left]
    exact List.getD_eq_getElem src 0 (by omega)

theorem padTo_eq_self (n : Nat) (bs : List Nat) (h : bs.length = n) :
    padTo n bs = bs := by
  simp [padTo, h]


theorem readRegister_uint1 (L : UserLayout) (r : RegDef) (b : Buf)
    (h1 : r.repr = RegisterRepr.uint) (h2 : r.byteWidth L = 1) :
    readRegister L r b = Except.ok (RegisterValue.u8
      (fromLEBytes (readBytes b (r.offsetInUserStruct L) 1))) := by
  unfold readRegister
  rw [h1, h2]

theorem readRegister_longDouble (L : UserLayout) (r : RegDef) (b : Buf)
    (h1 : r.repr = RegisterRepr.longDouble) :
    readRegister L r b = Except.ok (RegisterValue.f128
      (padTo 16 (readBytes b (r.offsetInUserStruct L) (r.byteWidth L)))) := by
  unfold readRegister
  rw [h1]

theorem readRegister_vector16 (L : UserLayout) (r : RegDef) (b : Buf)
    (h1 : r.repr = RegisterRepr.vector) (h2 : r.byteWidth L = 16) :
    readRegister L r b = Except.ok (RegisterValue.byte128
      (padTo 16 (readBytes b (r.offsetInUserStruct L) 16))) := by
  unfold readRegister
  rw [h1, h2]
  norm_num


theorem readRegister_vector8 (L : UserLayout) (r : RegDef) (b : Buf)
    (h1 : r.repr = RegisterRepr.vector) (h2 : r.byteWidth L = 8) :
    readRegister L r b = Except.ok (RegisterValue.byte64
      (padTo 8 (readBytes b (r.offsetInUserStruct L) 8))) := by
  unfold readRegister
  rw [h1, h2]
  norm_num


theorem readRegister_uint2 (L : UserLayout) (r : RegDef) (b : Buf)
    (h1 : r.repr = RegisterRepr.uint) (h2 : r.byteWidth L = 2) :
    readRegister L r b = Except.ok (RegisterValue.u16
      (fromLEBytes (readBytes b (r.offsetInUserStruct L) 2))) := by
  unfold readRegister
  rw [h1, h2]

theorem readRegister_uint4 (L : UserLayout) (r : RegDef) (b : Buf)
    (h1 : r.repr = RegisterRepr.uint) (h2 : r.byteWidth L = 4) :
    readRegister L r b = Except.ok (RegisterValue.u32
      (fromLEBytes (readBytes b (r.offsetInUserStruct L) 4))) := by
  unfold readRegister
  rw [h1, h2]

theorem readRegister_uint8 (L : UserLayout) (r : RegDef) (b : Buf)
    (h1 : r.repr = RegisterRepr.uint) (h2 : r.byteWidth L = 8) :
    readRegister L r b = Except.ok (RegisterValue.u64
      (fromLEBytes (readBytes b (r.offsetInUserStruct L) 8))) := by
  unfold readRegister
  rw [h1, h2]

theorem copyBytes_apply_add (b : Buf) (off : Nat) (src : List Nat) (i : Nat) :
    copyBytes b off src (off + i) =
      if i < src.length then src.getD i 0 else b (off + i) := by
  unfold copyBytes
  by_cases h : i < src.length
  · rw [if_pos (by omega), if_pos h, Nat.add_sub_cancel_left]
  · rw [if_neg (by omega), if_neg h]

theorem zeroFill_apply_add (b : Buf) (off len i : Nat) :
    zeroFill b off len (off + i) = if i < len then 0 else b (off + i) := by
  unfold zeroFill
  by_cases h : i < len
  · rw [if_pos (by omega), if_pos h]
  · rw [if_neg (by omega), if_neg h]

theorem copyBytes_apply_out (b : Buf) (off : Nat) (src : List Nat) (j : Nat)
    (h : j < off ∨ off + src.length ≤ j) : copyBytes b off src j = b j := by
  unfold copyBytes
  rw [if_neg (by omega)]

theorem zeroFill_apply_out (b : Buf) (off len j : Nat)
    (h : j < off ∨ off + len ≤ j) : zeroFill b off len j = b j := by
  unfold zeroFill
  rw [if_neg (by omega)]

theorem narrowing_write_zero_fills (L : UserLayout) (r : RegDef)
    (v : RegisterValue) (b : Buf)
    (hle : v.bytes.length ≤ r.byteWidth L) :
    (writeToUserStruct L r v b).2 = none ∧
    (∀ i, i < v.bytes.length →
      (writeToUserStruct L r v b).1 (r.offsetInUserStruct L + i) =
        v.bytes.getD i 0) ∧
    (∀ i, v.bytes.length ≤ i → i < r.byteWidth L →
      (writeToUserStruct L r v b).1 (r.offsetInUserStruct L + i) = 0) ∧
    (∀ j, j < r.offsetInUserStruct L ∨
        r.offsetInUserStruct L + r.byteWidth L ≤ j →
      (writeToUserStruct L r v b).1 j = b j) := by
  have hno : ¬ (r.byteWidth L < v.bytes.length) := by omega
  have hfst : (writeToUserStruct L r v b).1 =
      copyBytes (zeroFill b (r.offsetInUserStruct L) (r.byteWidth L))
        (r.offsetInUserStruct L) v.bytes := by
    simp [writeToUserStruct, copyToUserStruct, hno]
  refine ⟨by simp [writeToUserStruct, copyToUserStruct, hno], ?_, ?_, ?_⟩
  · intro i hi
    rw [hfst, copyBytes_apply_add, if_pos hi]
  · intro i h1 h2
    rw [hfst, copyBytes_apply_add, if_neg (by omega), zeroFill_apply_add,
      if_pos h2]
  · intro j hj
    rw [hfst, copyBytes_apply_out _ _ _ _ (by omega),
      zeroFill_apply_out _ _ _ _ (by omega)]

theorem copyBytes_apply_self (b : Buf) (off : Nat) (src : List Nat)
    (h : 0 < src.length) : copyBytes b off src off = src.getD 0 0 := by
  unfold copyBytes
  rw [if_pos (by omega), Nat.sub_self]

theorem zeroFill_apply_self (b : Buf) (off len : Nat) (h : 0 < len) :
    zeroFill b off len off = 0 := by
  unfold zeroFill
  rw [if_pos (by omega)]

theorem gpr_then_low_alias_scenario (L : UserLayout) (b : Buf) :
    readRegister L (RegDef.gpr64 "rax" (some 0))
      ((writeToUserStruct L (RegDef.gprSub "al" "rax" 1 0) (RegisterValue.u8 0)
        (writeToUserStruct L (RegDef.gpr64 "rax" (some 0))
          (RegisterValue.u64 (2 ^ 64 - 1)) b).1).1) =
      Except.ok (RegisterValue.u64 18446744073709551360) ∧
    readRegister L (RegDef.gprSub "al" "rax" 1 0)
      ((writeToUserStruct L (RegDef.gprSub "al" "rax" 1 0) (RegisterValue.u8 0)
        (writeToUserStruct L (RegDef.gpr64 "rax" (some 0))
          (RegisterValue.u64 (2 ^ 64 - 1)) b).1).1) =
      Except.ok (RegisterValue.u8 0) := by
  have hb64 : (RegisterValue.u64 18446744073709551615).bytes =
      [255, 255, 255, 255, 255, 255, 255, 255] := by decide
  have hb8 : (RegisterValue.u8 0).bytes = [0] := by decide
  have hfst1 : (writeToUserStruct L (RegDef.gpr64 "rax" (some 0))
      (RegisterValue.u64 (2 ^ 64 - 1)) b).1 =
      copyBytes (zeroFill b (L.regs + L.regsField "rax" + 0) 8)
        (L.regs + L.regsField "rax" + 0)
        [255, 255, 255, 255, 255, 255, 255, 255] := by
    simp [writeToUserStruct, copyToUserStruct, hb64, RegDef.byteWidth,
      RegDef.offsetInUserStruct]
  have hfst2 : ∀ c : Buf, (writeToUserStruct L (RegDef.gprSub "al" "rax" 1 0)
      (RegisterValue.u8 0) c).1 =
      copyBytes (zeroFill c (L.regs + L.regsField "rax" + 0) 1)
        (L.regs + L.regsField "rax" + 0) [0] := by
    intro c
    simp [writeToUserStruct, copyToUserStruct, hb8, RegDef.byteWidth,
      RegDef.offsetInUserStruct]
  have hread : readBytes ((writeToUserStruct L (RegDef.gprSub "al" "rax" 1 0)
      (RegisterValue.u8 0)
      (writeToUserStruct L (RegDef.gpr64 "rax" (some 0))
        (RegisterValue.u64 (2 ^ 64 - 1)) b).1).1)
      (L.regs + L.regsField "rax" + 0) 8 =
      [0, 255, 255, 255, 255, 255, 255, 255] := by
    rw [hfst2, hfst1]
    apply List.ext_getElem
    · simp [readBytes]
    · intro i h1 h2
      simp only [readBytes, List.getElem_map, List.getElem_range] at h1 ⊢
      simp only [List.length_map, List.length_range] at h1
      interval_cases i <;>
        simp [copyBytes_apply_add, zeroFill_apply_add, copyBytes_apply_self,
          zeroFill_apply_self]
  constructor
  · rw [readRegister_uint8 L (RegDef.gpr64 "rax" (some 0)) _ rfl rfl]
    simp only [RegDef.offsetInUserStruct]
    rw [hread]
    norm_num [fromLEBytes]
  · rw [readRegister_uint1 L (RegDef.gprSub "al" "rax" 1 0) _ rfl rfl]
    simp only [RegDef.offsetInUserStruct]
    have : readBytes ((writeToUserStruct L (RegDef.gprSub "al" "rax" 1 0)
        (RegisterValue.u8 0)
        (writeToUserStruct L (RegDef.gpr64 "rax" (some 0))
          (RegisterValue.u64 (2 ^ 64 - 1)) b).1).1)
        (L.regs + L.regsField "rax" + 0) 1 = [0] := by
      rw [hfst2, hfst1]
      apply List.ext_getElem
      · simp [readBytes]
      · intro i h1 h2
        simp only [readBytes, List.getElem_map, List.getElem_range] at h1 ⊢
        simp only [List.length_map, List.length_range] at h1
        interval_cases i
        simp [copyBytes_apply_add, zeroFill_apply_add, copyBytes_apply_self,
          zeroFill_apply_self]
    rw [this]
    norm_num [fromLEBytes]

set_option maxRecDepth 10000 in
/-- Sanity: `allDebugRegisters` is `dr0`…`dr7`. -/
theorem allDebugRegisters_eq :
    allDebugRegisters = [RegDef.dr 0, RegDef.dr 1, RegDef.dr 2, RegDef.dr 3,
      RegDef.dr 4, RegDef.dr 5, RegDef.dr 6, RegDef.dr 7] := by decide

/-- A well-formed value has as many bytes as its reported width. -/
theorem bytes_length_of_wfb (v : RegisterValue) (hwf : v.wfb = true) :
    v.bytes.length = v.byteWidth := by
  cases v <;>
    simp_all [RegisterValue.bytes, RegisterValue.byteWidth,
      RegisterValue.wfb, toLEBytes_length, intLEBytes]

/-- `read_from_user_struct` never builds a signed variant: its match
arms produce only `U8`/`U16`/`U32`/`U64`, `F128`, `Byte64`, `Byte128`. -/
theorem read_never_signed (L : UserLayout) (r : RegDef) (b : Buf)
    (v : RegisterValue) (h : readRegister L r b = Except.ok v) :
    v.isSigned = false := by
  unfold readRegister at h
  split at h
  all_goals try (split at h)
  all_goals try (split at h)
  all_goals simp_all [RegisterValue.isSigned]
  all_goals rw [← h]

theorem signed_readback1 (L : UserLayout) (r : RegDef) (b : Buf) (x : Int)
    (hrepr : r.repr = RegisterRepr.uint) (hw2 : r.byteWidth L = 1) :
    (writeToUserStruct L r (RegisterValue.i8 x) b).2 = none ∧
    readRegister L r (writeToUserStruct L r (RegisterValue.i8 x) b).1 =
      Except.ok (RegisterValue.u8 (x.emod (2 ^ 8)).toNat) := by
  have hb : (RegisterValue.i8 x).bytes =
      toLEBytes 1 (x.emod (2 ^ 8)).toNat := rfl
  have hlen : (RegisterValue.i8 x).bytes.length = 1 := by
    rw [hb, toLEBytes_length]
  have hno : ¬ (r.byteWidth L < (RegisterValue.i8 x).bytes.length) := by
    omega
  refine ⟨by simp [writeToUserStruct, copyToUserStruct, hno], ?_⟩
  have hfst : (writeToUserStruct L r (RegisterValue.i8 x) b).1 =
      copyBytes (zeroFill b (r.offsetInUserStruct L) (r.byteWidth L))
        (r.offsetInUserStruct L) (RegisterValue.i8 x).bytes := by
    simp [writeToUserStruct, copyToUserStruct, hno]
  have hlt : (x.emod (2 ^ 8)).toNat < 256 ^ 1 := by
    have h1 : x.emod (2 ^ 8) < 2 ^ 8 :=
      Int.emod_lt_of_pos x (by norm_num)
    have h2 : (0 : Int) ≤ x.emod (2 ^ 8) :=
      Int.emod_nonneg x (by norm_num)
    norm_num at h1 ⊢
    omega
  rw [readRegister_uint1 L r _ hrepr hw2, hfst, hw2]
  rw [readBytes_copyBytes_zeroFill b _ _ 1 hlen, hb]
  rw [fromLEBytes_toLEBytes 1 _ hlt]

theorem signed_readback2 (L : UserLayout) (r : RegDef) (b : Buf) (x : Int)
    (hrepr : r.repr = RegisterRepr.uint) (hw2 : r.byteWidth L = 2) :
    (writeToUserStruct L r (RegisterValue.i16 x) b).2 = none ∧
    readRegister L r (writeToUserStruct L r (RegisterValue.i16 x) b).1 =
      Except.ok (RegisterValue.u16 (x.emod (2 ^ 16)).toNat) := by
  have hb : (RegisterValue.i16 x).bytes =
      toLEBytes 2 (x.emod (2 ^ 16)).toNat := rfl
  have hlen : (RegisterValue.i16 x).bytes.length = 2 := by
    rw [hb, toLEBytes_length]
  have hno : ¬ (r.byteWidth L < (RegisterValue.i16 x).bytes.length) := by
    omega
  refine ⟨by simp [writeToUserStruct, copyToUserStruct, hno], ?_⟩
  have hfst : (writeToUserStruct L r (RegisterValue.i16 x) b).1 =
      copyBytes (zeroFill b (r.offsetInUserStruct L) (r.byteWidth L))
        (r.offsetInUserStruct L) (RegisterValue.i16 x).bytes := by
    simp [writeToUserStruct, copyToUserStruct, hno]
  have hlt : (x.emod (2 ^ 16)).toNat < 256 ^ 2 := by
    have h1 : x.emod (2 ^ 16) < 2 ^ 16 :=
      Int.emod_lt_of_pos x (by norm_num)
    have h2 : (0 : Int) ≤ x.emod (2 ^ 16) :=
      Int.emod_nonneg x (by norm_num)
    norm_num at h1 ⊢
    omega
  rw [readRegister_uint2 L r _ hrepr hw2, hfst, hw2]
  rw [readBytes_copyBytes_zeroFill b _ _ 2 hlen, hb]
  rw [fromLEBytes_toLEBytes 2 _ hlt]

theorem signed_readback4 (L : UserLayout) (r : RegDef) (b : Buf) (x : Int)
    (hrepr : r.repr = RegisterRepr.uint) (hw2 : r.byteWidth L = 4) :
    (writeToUserStruct L r (RegisterValue.i32 x) b).2 = none ∧
    readRegister L r (writeToUserStruct L r (RegisterValue.i32 x) b).1 =
      Except.ok (RegisterValue.u32 (x.emod (2 ^ 32)).toNat) := by
  have hb : (RegisterValue.i32 x).bytes =
      toLEBytes 4 (x.emod (2 ^ 32)).toNat := rfl
  have hlen : (RegisterValue.i32 x).bytes.length = 4 := by
    rw [hb, toLEBytes_length]
  have hno : ¬ (r.byteWidth L < (RegisterValue.i32 x).bytes.length) := by
    omega
  refine ⟨by simp [writeToUserStruct, copyToUserStruct, hno], ?_⟩
  have hfst : (writeToUserStruct L r (RegisterValue.i32 x) b).1 =
      copyBytes (zeroFill b (r.offsetInUserStruct L) (r.byteWidth L))
        (r.offsetInUserStruct L) (RegisterValue.i32 x).bytes := by
    simp [writeToUserStruct, copyToUserStruct, hno]
  have hlt : (x.emod (2 ^ 32)).toNat < 256 ^ 4 := by
    have h1 : x.emod (2 ^ 32) < 2 ^ 32 :=
      Int.emod_lt_of_pos x (by norm_num)
    have h2 : (0 : Int) ≤ x.emod (2 ^ 32) :=
      Int.emod_nonneg x (by norm_num)
    norm_num at h1 ⊢
    omega
  rw [readRegister_uint4 L r _ hrepr hw2, hfst, hw2]
  rw [readBytes_copyBytes_zeroFill b _ _ 4 hlen, hb]
  rw [fromLEBytes_toLEBytes 4 _ hlt]

theorem signed_readback8 (L : UserLayout) (r : RegDef) (b : Buf) (x : Int)
    (hrepr : r.repr = RegisterRepr.uint) (hw2 : r.byteWidth L = 8) :
    (writeToUserStruct L r (RegisterValue.i64 x) b).2 = none ∧
    readRegister L r (writeToUserStruct L r (RegisterValue.i64 x) b).1 =
      Except.ok (RegisterValue.u64 (x.emod (2 ^ 64)).toNat) := by
  have hb : (RegisterValue.i64 x).bytes =
      toLEBytes 8 (x.emod (2 ^ 64)).toNat := rfl
  have hlen : (RegisterValue.i64 x).bytes.length = 8 := by
    rw [hb, toLEBytes_length]
  have hno : ¬ (r.byteWidth L < (RegisterValue.i64 x).bytes.length) := by
    omega
  refine ⟨by simp [writeToUserStruct, copyToUserStruct, hno], ?_⟩
  have hfst : (writeToUserStruct L r (RegisterValue.i64 x) b).1 =
      copyBytes (zeroFill b (r.offsetInUserStruct L) (r.byteWidth L))
        (r.offsetInUserStruct L) (RegisterValue.i64 x).bytes := by
    simp [writeToUserStruct, copyToUserStruct, hno]
  have hlt : (x.emod (2 ^ 64)).toNat < 256 ^ 8 := by
    have h1 : x.emod (2 ^ 64) < 2 ^ 64 :=
      Int.emod_lt_of_pos x (by norm_num)
    have h2 : (0 : Int) ≤ x.emod (2 ^ 64) :=
      Int.emod_nonneg x (by norm_num)
    norm_num at h1 ⊢
    omega
  rw [readRegister_uint8 L r _ hrepr hw2, hfst, hw2]
  rw [readBytes_copyBytes_zeroFill b _ _ 8 hlen, hb]
  rw [fromLEBytes_toLEBytes 8 _ hlt]

/-! ## The claims -/

/-- C1: round-trip — for every layout, every descriptor and every
well-formed `RegisterValue` whose byte width equals the descriptor byte
width and whose variant matches the descriptor representation, writing
the value into a snapshot succeeds and reading the same register back
returns exactly the value written. -/
theorem write_read_roundtrip (L : UserLayout) (r : RegDef) (v : RegisterValue)
    (b : Buf) (hwf : v.wfb = true) (hmatch : v.matchesRepr r.repr = true)
    (hw : v.byteWidth = r.byteWidth L) :
    (writeToUserStruct L r v b).2 = none ∧
    readRegister L r (writeToUserStruct L r v b).1 = Except.ok v := by
  cases v with
  | u8 x =>
    have hrepr : r.repr = RegisterRepr.uint := by
      cases hx : r.repr <;> simp_all [RegisterValue.matchesRepr]
    have hw2 : r.byteWidth L = 1 := by
      simpa [RegisterValue.byteWidth] using hw.symm
    have hlen : (RegisterValue.u8 x).bytes.length = 1 := by
      simp [RegisterValue.bytes, toLEBytes_length]
    have hno : ¬ (r.byteWidth L < (RegisterValue.u8 x).bytes.length) := by
      omega
    refine ⟨by simp [writeToUserStruct, copyToUserStruct, hno], ?_⟩
    have hfst : (writeToUserStruct L r (RegisterValue.u8 x) b).1 =
        copyBytes (zeroFill b (r.offsetInUserStruct L) (r.byteWidth L))
          (r.offsetInUserStruct L) (RegisterValue.u8 x).bytes := by
      simp [writeToUserStruct, copyToUserStruct, hno]
    rw [readRegister_uint1 L r _ hrepr hw2, hfst, hw2]
    rw [readBytes_copyBytes_zeroFill b _ _ 1 hlen]
    simp only [RegisterValue.bytes]
    rw [fromLEBytes_toLEBytes 1 x (by simpa [RegisterValue.wfb] using hwf)]
  | u16 x =>
    have hrepr : r.repr = RegisterRepr.uint := by
      cases hx : r.repr <;> simp_all [RegisterValue.matchesRepr]
    have hw2 : r.byteWidth L = 2 := by
      simpa [RegisterValue.byteWidth] using hw.symm
    have hlen : (RegisterValue.u16 x).bytes.length = 2 := by
      simp [RegisterValue.bytes, toLEBytes_length]
    have hno : ¬ (r.byteWidth L < (RegisterValue.u16 x).bytes.length) := by
      omega
    refine ⟨by simp [writeToUserStruct, copyToUserStruct, hno], ?_⟩
    have hfst : (writeToUserStruct L r (RegisterValue.u16 x) b).1 =
        copyBytes (zeroFill b (r.offsetInUserStruct L) (r.byteWidth L))
          (r.offsetInUserStruct L) (RegisterValue.u16 x).bytes := by
      simp [writeToUserStruct, copyToUserStruct, hno]
    rw [readRegister_uint2 L r _ hrepr hw2, hfst, hw2]
    rw [readBytes_copyBytes_zeroFill b _ _ 2 hlen]
    simp only [RegisterValue.bytes]
    rw [fromLEBytes_toLEBytes 2 x (by simpa [RegisterValue.wfb] using hwf)]
  | u32 x =>
    have hrepr : r.repr = RegisterRepr.uint := by
      cases hx : r.repr <;> simp_all [RegisterValue.matchesRepr]
    have hw2 : r.byteWidth L = 4 := by
      simpa [RegisterValue.byteWidth] using hw.symm
    have hlen : (RegisterValue.u32 x).bytes.length = 4 := by
      simp [RegisterValue.bytes, toLEBytes_length]
    have hno : ¬ (r.byteWidth L < (RegisterValue.u32 x).bytes.length) := by
      omega
    refine ⟨by simp [writeToUserStruct, copyToUserStruct, hno], ?_⟩
    have hfst : (writeToUserStruct L r (RegisterValue.u32 x) b).1 =
        copyBytes (zeroFill b (r.offsetInUserStruct L) (r.byteWidth L))
          (r.offsetInUserStruct L) (RegisterValue.u32 x).bytes := by
      simp [writeToUserStruct, copyToUserStruct, hno]
    rw [readRegister_uint4 L r _ hrepr hw2, hfst, hw2]
    rw [readBytes_copyBytes_zeroFill b _ _ 4 hlen]
    simp only [RegisterValue.bytes]
    rw [fromLEBytes_toLEBytes 4 x (by simpa [RegisterValue.wfb] using hwf)]
  | u64 x =>
    have hrepr : r.repr = RegisterRepr.uint := by
      cases hx : r.repr <;> simp_all [RegisterValue.matchesRepr]
    have hw2 : r.byteWidth L = 8 := by
      simpa [RegisterValue.byteWidth] using hw.symm
    have hlen : (RegisterValue.u64 x).bytes.length = 8 := by
      simp [RegisterValue.bytes, toLEBytes_length]
    have hno : ¬ (r.byteWidth L < (RegisterValue.u64 x).bytes.length) := by
      omega
    refine ⟨by simp [writeToUserStruct, copyToUserStruct, hno], ?_⟩
    have hfst : (writeToUserStruct L r (RegisterValue.u64 x) b).1 =
        copyBytes (zeroFill b (r.offsetInUserStruct L) (r.byteWidth L))
          (r.offsetInUserStruct L) (RegisterValue.u64 x).bytes := by
      simp [writeToUserStruct, copyToUserStruct, hno]
    rw [readRegister_uint8 L r _ hrepr hw2, hfst, hw2]
    rw [readBytes_copyBytes_zeroFill b _ _ 8 hlen]
    simp only [RegisterValue.bytes]
    rw [fromLEBytes_toLEBytes 8 x (by simpa [RegisterValue.wfb] using hwf)]
  | i8 x => simp [RegisterValue.matchesRepr] at hmatch
  | i16 x => simp [RegisterValue.matchesRepr] at hmatch
  | i32 x => simp [RegisterValue.matchesRepr] at hmatch
  | i64 x => simp [RegisterValue.matchesRepr] at hmatch
  | f128 bs =>
    have hrepr : r.repr = RegisterRepr.longDouble := by
      cases hx : r.repr <;> simp_all [RegisterValue.matchesRepr]
    have hw2 : r.byteWidth L = 16 := by
      simpa [RegisterValue.byteWidth] using hw.symm
    have hbs : bs.length = 16 ∧ ∀ y ∈ bs, y < 256 := by
      simpa [RegisterValue.wfb] using hwf
    have hlen : (RegisterValue.f128 bs).bytes.length = 16 := by
      simp [RegisterValue.bytes, hbs.1]
    have hno : ¬ (r.byteWidth L < (RegisterValue.f128 bs).bytes.length) := by
      omega
    refine ⟨by simp [writeToUserStruct, copyToUserStruct, hno], ?_⟩
    have hfst : (writeToUserStruct L r (RegisterValue.f128 bs) b).1 =
        copyBytes (zeroFill b (r.offsetInUserStruct L) (r.byteWidth L))
          (r.offsetInUserStruct L) (RegisterValue.f128 bs).bytes := by
      simp [writeToUserStruct, copyToUserStruct, hno]
    rw [readRegister_longDouble L r _ hrepr, hfst, hw2]
    rw [readBytes_copyBytes_zeroFill b _ _ 16 hlen]
    simp only [RegisterValue.bytes]
    rw [padTo_eq_self 16 bs hbs.1]
  | byte64 bs =>
    have hrepr : r.repr = RegisterRepr.vector := by
      cases hx : r.repr <;> simp_all [RegisterValue.matchesRepr]
    have hw2 : r.byteWidth L = 8 := by
      simpa [RegisterValue.byteWidth] using hw.symm
    have hbs : bs.length = 8 ∧ ∀ y ∈ bs, y < 256 := by
      simpa [RegisterValue.wfb] using hwf
    have hlen : (RegisterValue.byte64 bs).bytes.length = 8 := by
      simp [RegisterValue.bytes, hbs.1]
    have hno : ¬ (r.byteWidth L < (RegisterValue.byte64 bs).bytes.length) := by
      omega
    refine ⟨by simp [writeToUserStruct, copyToUserStruct, hno], ?_⟩
    have hfst : (writeToUserStruct L r (RegisterValue.byte64 bs) b).1 =
        copyBytes (zeroFill b (r.offsetInUserStruct L) (r.byteWidth L))
          (r.offsetInUserStruct L) (RegisterValue.byte64 bs).bytes := by
      simp [writeToUserStruct, copyToUserStruct, hno]
    rw [readRegister_vector8 L r _ hrepr hw2, hfst, hw2]
    rw [readBytes_copyBytes_zeroFill b _ _ 8 hlen]
    simp only [RegisterValue.bytes]
    rw [padTo_eq_self 8 bs hbs.1]
  | byte128 bs =>
    have hrepr : r.repr = RegisterRepr.vector := by
      cases hx : r.repr <;> simp_all [RegisterValue.matchesRepr]
    have hw2 : r.byteWidth L = 16 := by
      simpa [RegisterValue.byteWidth] using hw.symm
    have hbs : bs.length = 16 ∧ ∀ y ∈ bs, y < 256 := by
      simpa [RegisterValue.wfb] using hwf
    have hlen : (RegisterValue.byte128 bs).bytes.length = 16 := by
      simp [RegisterValue.bytes, hbs.1]
    have hno : ¬ (r.byteWidth L < (RegisterValue.byte128 bs).bytes.length) := by
      omega
    refine ⟨by simp [writeToUserStruct, copyToUserStruct, hno], ?_⟩
    have hfst : (writeToUserStruct L r (RegisterValue.byte128 bs) b).1 =
        copyBytes (zeroFill b (r.offsetInUserStruct L) (r.byteWidth L))
          (r.offsetInUserStruct L) (RegisterValue.byte128 bs).bytes := by
      simp [writeToUserStruct, copyToUserStruct, hno]
    rw [readRegister_vector16 L r _ hrepr hw2, hfst, hw2]
    rw [readBytes_copyBytes_zeroFill b _ _ 16 hlen]
    simp only [RegisterValue.bytes]
    rw [padTo_eq_self 16 bs hbs.1]

/-- Witness for the round-trip claim: `U64 5` on `rax`. -/
theorem write_read_roundtrip_witness :
    (writeToUserStruct linuxAmd64Layout (RegDef.gpr64 "rax" (some 0))
      (RegisterValue.u64 5) zeroBuf).2 = none ∧
    readRegister linuxAmd64Layout (RegDef.gpr64 "rax" (some 0))
      (writeToUserStruct linuxAmd64Layout (RegDef.gpr64 "rax" (some 0))
        (RegisterValue.u64 5) zeroBuf).1 = Except.ok (RegisterValue.u64 5) :=
  write_read_roundtrip linuxAmd64Layout (RegDef.gpr64 "rax" (some 0))
    (RegisterValue.u64 5) zeroBuf (by decide) (by decide) (by decide)

/-- C2: zero-fill on narrowing write — a successful write of a
well-formed value no wider than the register leaves the low bytes of
the lane equal to the value bytes and the remaining high bytes zero;
and concretely, writing all-ones to a 64-bit register, then the byte
`0x00` to its 8-bit low alias, reads back the full register with only
the low byte cleared and the alias as exactly `0x00`. -/
theorem write_zero_fill_discipline :
    (∀ (L : UserLayout) (r : RegDef) (v : RegisterValue) (b : Buf),
      v.wfb = true → v.byteWidth ≤ r.byteWidth L →
      (writeToUserStruct L r v b).2 = none ∧
      (∀ i, i < v.byteWidth →
        (writeToUserStruct L r v b).1 (r.offsetInUserStruct L + i) =
          v.bytes.getD i 0) ∧
      (∀ i, v.byteWidth ≤ i → i < r.byteWidth L →
        (writeToUserStruct L r v b).1 (r.offsetInUserStruct L + i) = 0)) ∧
    (∀ (L : UserLayout) (b : Buf),
      readRegister L (RegDef.gpr64 "rax" (some 0))
        ((writeToUserStruct L (RegDef.gprSub "al" "rax" 1 0)
          (RegisterValue.u8 0)
          (writeToUserStruct L (RegDef.gpr64 "rax" (some 0))
            (RegisterValue.u64 (2 ^ 64 - 1)) b).1).1) =
        Except.ok (RegisterValue.u64 18446744073709551360) ∧
      readRegister L (RegDef.gprSub "al" "rax" 1 0)
        ((writeToUserStruct L (RegDef.gprSub "al" "rax" 1 0)
          (RegisterValue.u8 0)
          (writeToUserStruct L (RegDef.gpr64 "rax" (some 0))
            (RegisterValue.u64 (2 ^ 64 - 1)) b).1).1) =
        Except.ok (RegisterValue.u8 0)) := by
  constructor
  · intro L r v b hwf hle
    have hlen := bytes_length_of_wfb v hwf
    have h := narrowing_write_zero_fills L r v b (by omega)
    exact ⟨h.1, fun i hi => h.2.1 i (by omega),
      fun i h1 h2 => h.2.2.1 i (by omega) h2⟩
  · exact gpr_then_low_alias_scenario

/-- C3: size-mismatch rejection is atomic — an oversized value (or an
oversized raw payload through `write_any`) yields the size-mismatch
error and the returned buffer is the input buffer itself: the check
precedes any mutation. -/
theorem oversized_write_rejected (L : UserLayout) (r : RegDef)
    (v : RegisterValue) (payload : List Nat) (b : Buf)
    (hwf : v.wfb = true) (hv : r.byteWidth L < v.byteWidth)
    (hp : r.byteWidth L < payload.length) :
    writeToUserStruct L r v b = (b, some RegError.registerSizeMismatch) ∧
    writeAnyToUserStruct L r payload b =
      (b, some RegError.registerSizeMismatch) := by
  have hlen := bytes_length_of_wfb v hwf
  constructor
  · rw [writeToUserStruct, copyToUserStruct, if_pos (by omega)]
  · rw [writeAnyToUserStruct, copyToUserStruct, if_pos hp]

/-- Witness for size-mismatch rejection: `U64` into the 4-byte `eax`. -/
theorem oversized_write_rejected_witness :
    writeToUserStruct linuxAmd64Layout (RegDef.gprSub "eax" "rax" 4 0)
      (RegisterValue.u64 1) zeroBuf =
      (zeroBuf, some RegError.registerSizeMismatch) ∧
    writeAnyToUserStruct linuxAmd64Layout (RegDef.gprSub "eax" "rax" 4 0)
      [1, 2, 3, 4, 5] zeroBuf =
      (zeroBuf, some RegError.registerSizeMismatch) :=
  oversized_write_rejected linuxAmd64Layout (RegDef.gprSub "eax" "rax" 4 0)
    (RegisterValue.u64 1) [1, 2, 3, 4, 5] zeroBuf (by decide) (by decide)
    (by decide)

/-- C4: terminal resume rejection — on `Exited`/`Terminated`, `resume`
fails with the terminal-state error and leaves the state exactly as it
was; on `Stopped`/`Running` it issues the continue request, and when
that succeeds the state becomes `Running` with no error. -/
theorem resume_terminal_rejection (contOk : Bool) (s : ProcessState) :
    (s.isAlive = false →
      (resume contOk s).error = some DbgError.resumeOnTerminalState ∧
      (resume contOk s).newState = s) ∧
    (s.isAlive = true →
      OsCall.ptraceCont ∈ (resume contOk s).calls ∧
      (contOk = true →
        (resume contOk s).newState = ProcessState.running ∧
        (resume contOk s).error = none)) := by
  cases s <;> cases contOk <;> simp [resume, ProcessState.isAlive]

/-- C5 counterexample: with the process alive, ownership set and
`kill(SIGSTOP)` failing, teardown stops right after the failed stop
signal — the kill signal is never sent, contradicting the claim that
teardown proceeds to every subsequent step. -/
theorem drop_stop_failure_skips_kill :
    DropStep.killKill ∉ dropSteps true true false true true true ∧
    dropSteps true true false true true true =
      [DropStep.updateState, DropStep.killStop] := by decide

/-- C5 amended: teardown never raises an error (the function is total);
`ptrace::detach` and `kill(SIGCONT)` failures are warnings only and
never change the action sequence; when the process is alive, the stop
signal succeeded and the controller owns the process, the kill signal
is sent, and the reap-wait additionally requires the kill to succeed —
a stop-signal failure aborts the remaining steps and a kill failure
skips the reap-wait. -/
theorem drop_best_effort_structure
    (alive owned stopOk detachOk contOk killOk d2 c2 : Bool) :
    dropSteps alive owned stopOk detachOk contOk killOk =
      dropSteps alive owned stopOk d2 c2 killOk ∧
    (alive = true → stopOk = true → owned = true →
      DropStep.killKill ∈ dropSteps alive owned stopOk detachOk contOk killOk) ∧
    (alive = true → stopOk = true → owned = true → killOk = true →
      DropStep.waitReap ∈ dropSteps alive owned stopOk detachOk contOk killOk ∧
      DropStep.waitFinal ∈ dropSteps alive owned stopOk detachOk contOk killOk) ∧
    (alive = true → stopOk = false →
      dropSteps alive owned stopOk detachOk contOk killOk =
        [DropStep.updateState, DropStep.killStop]) ∧
    (alive = true → stopOk = true → owned = true → killOk = false →
      DropStep.waitReap ∉ dropSteps alive owned stopOk detachOk contOk killOk) := by
  cases alive <;> cases owned <;> cases stopOk <;> cases killOk <;>
    simp [dropSteps]

set_option maxRecDepth 10000 in
/-- C6: catalog injectivity — names are pairwise distinct, dwarf ids
(where present) are pairwise distinct, both lookups return exactly the
unique matching descriptor, and a miss returns `none`. -/
theorem catalog_names_and_dwarf_ids_injective :
    (allRegisters.map RegDef.regName).Nodup ∧
    (allRegisters.filterMap RegDef.dwarfId).Nodup ∧
    (∀ r ∈ allRegisters, lookupByName r.regName = some r) ∧
    (∀ r ∈ allRegisters, ∀ d ∈ r.dwarfId, lookupByDwarfId d = some r) ∧
    (∀ n, (∀ r ∈ allRegisters, r.regName ≠ n) → lookupByName n = none) ∧
    (∀ d, (∀ r ∈ allRegisters, r.dwarfId ≠ some d) →
      lookupByDwarfId d = none) := by
  refine ⟨by decide, by decide, by decide, by decide, ?_, ?_⟩
  · intro n h
    simp only [lookupByName, List.find?_eq_none, beq_iff_eq]
    intro r hr
    exact h r hr
  · intro d h
    simp only [lookupByDwarfId, List.find?_eq_none, beq_iff_eq]
    intro r hr
    exact h r hr

/-- C7 counterexample: on the Linux amd64 layout, `mm1` does not sit 8
bytes past the MMX group base — the generated stride for the MMX alias
group is 16 bytes, not the 8 the claim states. -/
theorem mm_stride_not_eight :
    RegDef.offsetInUserStruct linuxAmd64Layout (RegDef.fpMM 1) ≠
      linuxAmd64Layout.i387 + linuxAmd64Layout.st_space + 1 * 8 := by decide

/-- C7 amended: for every layout, the `st` slots stride 16 bytes, the
MMX aliases also stride 16 bytes (each aliasing the low half of a
16-byte `st_space` slot), the vector registers stride 16 bytes, and the
debug registers stride 8 bytes, each from its group base offset. -/
theorem array_group_offset_strides (L : UserLayout) (i : Nat) :
    RegDef.offsetInUserStruct L (RegDef.fpSt i) =
      L.i387 + L.st_space + i * 16 ∧
    RegDef.offsetInUserStruct L (RegDef.fpMM i) =
      L.i387 + L.st_space + i * 16 ∧
    RegDef.offsetInUserStruct L (RegDef.fpXMM i) =
      L.i387 + L.xmm_space + i * 16 ∧
    RegDef.offsetInUserStruct L (RegDef.dr i) =
      L.u_debugreg + 0 + i * 8 := by
  exact ⟨rfl, rfl, rfl, rfl⟩

/-- C8: snapshot assembly reads exactly 8 debug registers — zipping
`0..=8` with the 8 debug-register descriptors truncates to 8 pairs, one
`ptrace::read_user` query per register `dr0`…`dr7` into slot 0…7, with
no 9th slot touched. -/
theorem debug_register_reads_exactly_eight (L : UserLayout) :
    debugRegisterReads L =
      [(0, L.u_debugreg + 0 + 0 * 8), (1, L.u_debugreg + 0 + 1 * 8),
       (2, L.u_debugreg + 0 + 2 * 8), (3, L.u_debugreg + 0 + 3 * 8),
       (4, L.u_debugreg + 0 + 4 * 8), (5, L.u_debugreg + 0 + 5 * 8),
       (6, L.u_debugreg + 0 + 6 * 8), (7, L.u_debugreg + 0 + 7 * 8)] ∧
    (debugRegisterReads L).length = 8 ∧
    (debugRegisterReads L).map Prod.fst = List.range 8 ∧
    8 ∉ (debugRegisterReads L).map Prod.fst := by
  have h : debugRegisterReads L =
      [(0, L.u_debugreg + 0 + 0 * 8), (1, L.u_debugreg + 0 + 1 * 8),
       (2, L.u_debugreg + 0 + 2 * 8), (3, L.u_debugreg + 0 + 3 * 8),
       (4, L.u_debugreg + 0 + 4 * 8), (5, L.u_debugreg + 0 + 5 * 8),
       (6, L.u_debugreg + 0 + 6 * 8), (7, L.u_debugreg + 0 + 7 * 8)] := by
    rw [debugRegisterReads, allDebugRegisters_eq]
    rfl
  refine ⟨h, by rw [h]; rfl, by rw [h]; rfl, by rw [h]; simp⟩

/-- C9 counterexample: `resume` on a stopped process installs a changed
state (`Running`) while performing no wait/status query at all, so the
state is not always set by decoding a wait result. -/
theorem resume_installs_state_without_wait :
    (resume true (ProcessState.stopped none)).newState ≠
      ProcessState.stopped none ∧
    OsCall.waitQuery ∉ (resume true (ProcessState.stopped none)).calls := by
  decide

/-- C9 amended: `update_process_state` installs only states decoded
from its wait query (or leaves the state unchanged on a wait error) and
always performs that query; `resume` either leaves the state unchanged
or installs `Running` directly, performing no wait query; construction
starts from `Stopped(None)` set directly. -/
theorem state_installation_paths (w : WaitOutcome) (s : ProcessState)
    (contOk : Bool) :
    ((updateProcessState w s).newState = s ∨
      decodeWaitStatus w = Except.ok (updateProcessState w s).newState) ∧
    OsCall.waitQuery ∈ (updateProcessState w s).calls ∧
    ((resume contOk s).newState = s ∨
      (resume contOk s).newState = ProcessState.running) ∧
    OsCall.waitQuery ∉ (resume contOk s).calls ∧
    initialProcessState = ProcessState.stopped none := by
  refine ⟨?_, ?_, ?_, ?_, rfl⟩
  · cases w <;> simp [updateProcessState, decodeWaitStatus]
  · cases w <;> simp [updateProcessState, decodeWaitStatus]
  · cases s <;> cases contOk <;> simp [resume]
  · cases s <;> cases contOk <;> simp [resume]

/-- C10: reads never yield a signed variant — every successful
`read_register` returns an unsigned-integer, extended-precision-float
or byte-array variant; and writing a signed-integer value of the exact
register width succeeds but reads back as the unsigned variant holding
the same bytes (the value modulo 2^width). -/
theorem read_yields_unsigned_variants :
    (∀ (L : UserLayout) (r : RegDef) (b : Buf) (v : RegisterValue),
      readRegister L r b = Except.ok v → v.isSigned = false) ∧
    (∀ (L : UserLayout) (r : RegDef) (b : Buf) (x : Int),
      r.repr = RegisterRepr.uint →
      (r.byteWidth L = 1 →
        (writeToUserStruct L r (RegisterValue.i8 x) b).2 = none ∧
        readRegister L r (writeToUserStruct L r (RegisterValue.i8 x) b).1 =
          Except.ok (RegisterValue.u8 (x.emod (2 ^ 8)).toNat)) ∧
      (r.byteWidth L = 2 →
        (writeToUserStruct L r (RegisterValue.i16 x) b).2 = none ∧
        readRegister L r (writeToUserStruct L r (RegisterValue.i16 x) b).1 =
          Except.ok (RegisterValue.u16 (x.emod (2 ^ 16)).toNat)) ∧
      (r.byteWidth L = 4 →
        (writeToUserStruct L r (RegisterValue.i32 x) b).2 = none ∧
        readRegister L r (writeToUserStruct L r (RegisterValue.i32 x) b).1 =
          Except.ok (RegisterValue.u32 (x.emod (2 ^ 32)).toNat)) ∧
      (r.byteWidth L = 8 →
        (writeToUserStruct L r (RegisterValue.i64 x) b).2 = none ∧
        readRegister L r (writeToUserStruct L r (RegisterValue.i64 x) b).1 =
          Except.ok (RegisterValue.u64 (x.emod (2 ^ 64)).toNat))) :=
  ⟨fun L r b v h => read_never_signed L r b v h,
   fun L r b x hrepr =>
     ⟨fun hw => signed_readback1 L r b x hrepr hw,
      fun hw => signed_readback2 L r b x hrepr hw,
      fun hw => signed_readback4 L r b x hrepr hw,
      fun hw => signed_readback8 L r b x hrepr hw⟩⟩

end StupidDbg
